import Mathlib

/-!
Verification of the rgrpc C-core engine (src/client.cpp, src/server.cpp,
src/common.h) against its natural-language specification.

Shallow embedding notes.
* Byte sequences (Rcpp::RawVector, grpc byte buffers) are `List Nat`.
* The gRPC C library is the external transport collaborator.  Its observable
  interactions (completion-queue events, `grpc_call_error` return codes of
  `grpc_call_start_batch` / `grpc_server_request_call`) are inputs to the
  embedded step functions.  Output parameters of receive operations
  (`status_code_recv`, `details_slice_recv`, `response_bb`) keep their
  initial values (`GRPC_STATUS_UNKNOWN`, empty slice, null) unless the batch
  completes with `success = true`; this is the gRPC contract for recv ops and
  is how the receive state is modelled below.
* R handler closures and R hook functions are opaque callables that either
  return a value or raise one of the fault kinds the C++ code catches
  (`Rcpp::exception`, `std::exception`, unknown `...`).
-/

namespace RGrpc

/-- Byte sequences: Rcpp::RawVector contents / grpc byte-buffer contents. -/
abbrev Bytes := List Nat

/-- The grpc status codes used by client.cpp and server.cpp
(`grpc_status_code` values from the transport collaborator). -/
inductive StatusCode where
  | ok
  | cancelled
  | unknown
  | invalidArgument
  | deadlineExceeded
  | unimplemented
  | internal
  deriving DecidableEq

/-- Numeric values of `grpc_status_code` (transport header): OK=0, CANCELLED=1,
UNKNOWN=2, INVALID_ARGUMENT=3, DEADLINE_EXCEEDED=4, UNIMPLEMENTED=12,
INTERNAL=13.  Used where the C++ code stringifies a status with
`std::to_string`. -/
def StatusCode.toNat : StatusCode → Nat
  | .ok => 0
  | .cancelled => 1
  | .unknown => 2
  | .invalidArgument => 3
  | .deadlineExceeded => 4
  | .unimplemented => 12
  | .internal => 13

/-- Result of `grpc_call_start_batch` / `grpc_server_request_call`
(`grpc_call_error`): `GRPC_CALL_OK` or a nonzero error code `n`. -/
inductive CallError where
  | ok
  | error (n : Nat)
  deriving DecidableEq

/-- client.cpp lines 82-91: metadata entries are built pairwise,
`(r_metadata[i], r_metadata[i+1])` for even `i`. -/
def pairUp : List String → List (String × String)
  | k :: v :: rest => (k, v) :: pairUp rest
  | _ => []

/-- client.cpp lines 80-94: the metadata store is populated only when
`r_metadata.size() > 0 && r_metadata.size() % 2 == 0`; otherwise the send
array keeps count 0 (no metadata is attached). -/
def buildMetadataStore (r_metadata : List String) : List (String × String) :=
  if 0 < r_metadata.length ∧ r_metadata.length % 2 = 0 then pairUp r_metadata else []

/-- Outcome of the client entry phase before any transport interaction.
The `callerInputError` constructor exists so the spec's input-validation
taxonomy is statable; `robust_grpc_client_call` (client.cpp lines 32-94)
contains no code path that produces it: target and method are read at lines
65-66 without any emptiness check, and the only metadata handling is the
silent guard modelled by `buildMetadataStore`. -/
inductive ClientPre where
  | callerInputError (msg : String)
  | proceed (store : List (String × String))
  deriving DecidableEq

/-- True when the entry phase rejected the input as a caller error. -/
def ClientPre.isCallerError : ClientPre → Bool
  | .callerInputError _ => true
  | .proceed _ => false

/-- client.cpp lines 54-94: the pre-transport phase of
`robust_grpc_client_call`.  The target and method strings are read but never
validated, and malformed metadata is dropped rather than rejected, so the
phase always proceeds. -/
def clientPre (_r_target_str _r_method_str : String) (r_metadata : List String) : ClientPre :=
  ClientPre.proceed (buildMetadataStore r_metadata)

/-- client.cpp line 127: the call deadline is
`gpr_now + gpr_time_from_seconds(15)` — a fixed 15 seconds. -/
def clientCallDeadline (now : Nat) : Nat := now + 15

/-- Modelled from the spec (section 4.1 and section 6): the spec's deadline rule,
`now + caller-supplied timeoutSeconds`, stated for comparison with
`clientCallDeadline` taken from the source. -/
def clientCallDeadlineSpec (now timeoutSeconds : Nat) : Nat := now + timeoutSeconds

/-- client.cpp lines 32-35: the parameters of the exported entry point
`robust_grpc_client_call`.  There is no timeout parameter. -/
def clientCallParams : List String :=
  ["r_target_str", "r_method_str", "r_request_payload", "r_metadata_sexp"]

/-- The operations of the single client batch (client.cpp lines 142-175). -/
inductive ClientOp where
  | sendInitialMetadata (store : List (String × String))
  | sendMessage (payload : Bytes)
  | sendCloseFromClient
  | recvInitialMetadata
  | recvMessage
  | recvStatusOnClient
  deriving DecidableEq

/-- client.cpp lines 142-175: the one op batch submitted by the client, in
source order. -/
def clientBatch (store : List (String × String)) (payload : Bytes) : List ClientOp :=
  [ClientOp.sendInitialMetadata store,
   ClientOp.sendMessage payload,
   ClientOp.sendCloseFromClient,
   ClientOp.recvInitialMetadata,
   ClientOp.recvMessage,
   ClientOp.recvStatusOnClient]

/-- client.cpp line 178: the whole batch is correlated with the single tag 1. -/
def clientBatchTag : Nat := 1

/-- Completion-queue event kinds (`grpc_completion_type`). -/
inductive EventType where
  | queueShutdown
  | queueTimeout
  | opComplete
  deriving DecidableEq

/-- Numeric values of `grpc_completion_type` in the transport header:
GRPC_QUEUE_SHUTDOWN=0, GRPC_QUEUE_TIMEOUT=1, GRPC_OP_COMPLETE=2. -/
def EventType.toNat : EventType → Nat
  | .queueShutdown => 0
  | .queueTimeout => 1
  | .opComplete => 2

/-- A completion-queue event as the client sees it (`grpc_event`): the kind
and, for completions, the success flag. -/
structure ClientEvent where
  etype : EventType
  success : Bool
  deriving DecidableEq

/-- What the transport wrote into the client's receive buffers
(`status_code_recv`, `details_slice_recv`, `response_bb`).  Meaningful only
for a completion with `success = true`; on every other path the buffers keep
their initial values (see the module comment). -/
structure RecvState where
  status : StatusCode
  details : String
  respPayload : Option Bytes
  deriving DecidableEq

/-- Observable outcome of the client call after the submit/poll phase
(client.cpp lines 178-308): whether the queue was polled, whether
`grpc_call_cancel_with_status` was issued, the final `status_code_recv`,
the final `error_detail_str`, and the final `result_rawvector`. -/
structure ClientOutcome where
  polled : Bool
  cancelIssued : Bool
  finalStatus : StatusCode
  details : String
  result : Bytes
  deriving DecidableEq

/-- client.cpp lines 178-303: the submit/poll/extract phase of
`robust_grpc_client_call`.
* Submission failure (line 181): no poll, `error_detail_str` names the
  `grpc_call_start_batch` error, `status_code_recv` keeps UNKNOWN.
* Completion with success (lines 190-222): status and payload are read;
  an OK status with a null response buffer leaves `result_rawvector` empty.
* Completion without success (lines 223-232): classified as a batch failure;
  no cancellation, no deadline check; the receive buffers keep their initial
  values, so the logged status is UNKNOWN (2) and the empty details slice
  contributes nothing.
* Queue timeout (lines 233-236): classified as a timeout and
  `grpc_call_cancel_with_status(call, GRPC_STATUS_CANCELLED, ...)` is issued.
* Queue shutdown (lines 237-240): logged as an unexpected event. -/
def clientRun (sub : CallError) (ev : ClientEvent) (recv : RecvState) : ClientOutcome :=
  match sub with
  | CallError.error n =>
    { polled := false, cancelIssued := false, finalStatus := StatusCode.unknown,
      details := "Robust Client: grpc_call_start_batch failed with error: " ++ toString n,
      result := [] }
  | CallError.ok =>
    match ev.etype with
    | EventType.opComplete =>
      if ev.success then
        if recv.status = StatusCode.ok then
          { polled := true, cancelIssued := false, finalStatus := recv.status,
            details := "RPC failed.",
            result := recv.respPayload.getD [] }
        else
          { polled := true, cancelIssued := false, finalStatus := recv.status,
            details := "RPC failed with server status " ++ toString recv.status.toNat
              ++ ": " ++ recv.details,
            result := [] }
      else
        { polled := true, cancelIssued := false, finalStatus := StatusCode.unknown,
          details := "RPC batch failed (event.success=0). Final status from server (if any): "
            ++ toString StatusCode.unknown.toNat,
          result := [] }
    | EventType.queueTimeout =>
      { polled := true, cancelIssued := true, finalStatus := StatusCode.unknown,
        details := "Robust Client: Call timed out waiting for completion queue.",
        result := [] }
    | EventType.queueShutdown =>
      { polled := true, cancelIssued := false, finalStatus := StatusCode.unknown,
        details := "Robust Client: Unexpected event type from CQ: "
          ++ toString EventType.queueShutdown.toNat,
        result := [] }

/-- client.cpp lines 305-308: `Rcpp::stop(error_detail_str)` exactly when the
final `status_code_recv` is not `GRPC_STATUS_OK`, otherwise the result vector
is returned. -/
def clientReturns (o : ClientOutcome) : Except String Bytes :=
  if o.finalStatus = StatusCode.ok then Except.ok o.result else Except.error o.details

/-- True when the call surfaced an error to the caller (the `Rcpp::stop` path). -/
def clientIsError : Except String Bytes → Bool
  | Except.error _ => true
  | Except.ok _ => false

/-- Outcome of invoking an R handler closure (server.cpp lines 306-327): the
closure returns a byte vector or raises one of the three fault kinds the C++
dispatch boundary catches. -/
inductive HandlerOutcome where
  | success (resp : Bytes)
  | rcppFault (msg : String)
  | stdFault (msg : String)
  | unknownFault
  deriving DecidableEq

/-- A user-supplied handler: decoded request bytes to a handler outcome. -/
abbrev Handler := Bytes → HandlerOutcome

/-- True when the handler raised a fault instead of returning. -/
def HandlerOutcome.isFault : HandlerOutcome → Bool
  | .success _ => false
  | _ => true

/-- Result of server-side dispatch: the terminal status to send
(`status_to_send`), its detail string (`status_details_cpp_str`) and the
response bytes (`response_raw_from_r`, initialised to length 0 and only
filled on the OK path). -/
structure DispatchResult where
  status : StatusCode
  details : String
  response : Bytes
  deriving DecidableEq

/-- server.cpp lines 264-339: the DISPATCHING stage of
`robust_grpc_server_run`, run when the `TAG_READ_CLIENT_REQUEST` event
arrives.
* `event.success == 0` (lines 273-280): status CANCELLED.
* Payload buffer null (lines 292-295): status INVALID_ARGUMENT.
* Method found (lines 296-327): the R handler is invoked; a normal return
  gives status OK with the handler's bytes, each caught fault kind gives
  status INTERNAL with the corresponding detail string.
* Method not found (lines 330-337): status UNIMPLEMENTED, the detail names
  the method. -/
def dispatch (handlers : String → Option Handler) (readSuccess : Bool)
    (method : String) (payload : Option Bytes) : DispatchResult :=
  match readSuccess with
  | false =>
    ⟨StatusCode.cancelled, "Failed to receive client message or client cancelled.", []⟩
  | true =>
    match payload with
    | none =>
      ⟨StatusCode.invalidArgument,
       "Client did not send a message payload as expected for unary call.", []⟩
    | some p =>
      match handlers method with
      | some h =>
        match h p with
        | HandlerOutcome.success r => ⟨StatusCode.ok, "OK", r⟩
        | HandlerOutcome.rcppFault m =>
          ⟨StatusCode.internal, "Error in R handler: " ++ m, []⟩
        | HandlerOutcome.stdFault m =>
          ⟨StatusCode.internal, "System error in R handler: " ++ m, []⟩
        | HandlerOutcome.unknownFault =>
          ⟨StatusCode.internal, "Unknown error during R handler execution.", []⟩
      | none =>
        ⟨StatusCode.unimplemented, "Method not implemented or not found: " ++ method, []⟩

/-- The operations the server can place in its response batch
(server.cpp lines 342-376). -/
inductive ServerOp where
  | recvCloseOnServer
  | sendMessage (payload : Bytes)
  | sendStatusFromServer (status : StatusCode) (details : String)
  deriving DecidableEq

/-- server.cpp lines 342-376: the response batch, in source order —
`GRPC_OP_RECV_CLOSE_ON_SERVER`, then `GRPC_OP_SEND_MESSAGE` only when
`status_to_send == GRPC_STATUS_OK` (line 356), then
`GRPC_OP_SEND_STATUS_FROM_SERVER`. -/
def serverSendOps (d : DispatchResult) : List ServerOp :=
  [ServerOp.recvCloseOnServer]
    ++ (if d.status = StatusCode.ok then [ServerOp.sendMessage d.response] else [])
    ++ [ServerOp.sendStatusFromServer d.status d.details]

/-- The message, if any, carried by a server batch (the transport delivers it
to the client's `GRPC_OP_RECV_MESSAGE` buffer). -/
def sentMessage : List ServerOp → Option Bytes
  | [] => none
  | ServerOp.sendMessage p :: _ => some p
  | _ :: rest => sentMessage rest

/-- The status op, if any, carried by a server batch (delivered to the
client's `GRPC_OP_RECV_STATUS_ON_CLIENT` buffers). -/
def sentStatus : List ServerOp → Option (StatusCode × String)
  | [] => none
  | ServerOp.sendStatusFromServer s dtl :: _ => some (s, dtl)
  | _ :: rest => sentStatus rest

/-- Faithful transport (external collaborator): for a successful completion,
the client's receive buffers carry exactly the status, details and message
the server submitted in its response batch. -/
def deliver (ops : List ServerOp) : RecvState :=
  { status := ((sentStatus ops).map Prod.fst).getD StatusCode.unknown,
    details := ((sentStatus ops).map Prod.snd).getD "",
    respPayload := sentMessage ops }

/-- The correlation tags used by the server loop (server.cpp lines 21-24). -/
inductive STag where
  | requestNewCall
  | readClientRequest
  | sendServerResponse
  | serverShutdown
  deriving DecidableEq

/-- A completion-queue event as the server loop sees it. -/
structure SEvent where
  etype : EventType
  tag : STag
  success : Bool
  deriving DecidableEq

/-- Inputs of one iteration of the server loop's event processing: the event,
the accepted call's method and received payload (meaningful for the read
event), and the `grpc_call_error` results the transport returns for any
`grpc_call_start_batch` and `grpc_server_request_call` issued during the
iteration. -/
structure StepInput where
  ev : SEvent
  method : String
  payload : Option Bytes
  batchErr : CallError
  requestErr : CallError
  deriving DecidableEq

/-- Observables of one iteration of the server loop: whether `done` was set
(the loop exits), the response batch submitted this iteration (if any),
whether the current call's resources were released
(`grpc_call_unref` plus details/metadata destruction), and whether a new
call was requested (`grpc_server_request_call`, re-arming the accept slot). -/
structure StepOutput where
  done : Bool
  sendBatch : Option (List ServerOp)
  released : Bool
  rearmed : Bool
  deriving DecidableEq

/-- server.cpp lines 200-417: one iteration of the event-processing portion
of the `while (!done)` loop of `robust_grpc_server_run`.  (The interrupt and
duration guards at lines 171-183 precede this portion and are modelled
separately by the shutdown claims; they are not part of any claim below.)
* Queue timeout (lines 200-203): continue.
* Queue shutdown (lines 211-215): `done = true`.
* `TAG_REQUEST_NEW_CALL` (lines 218-263): on a failed accept, re-request and
  set `done` only if the re-request itself fails; on success, submit the
  read batch, and if that submission fails, release the call, re-request,
  and set `done` only if the re-request fails.
* `TAG_READ_CLIENT_REQUEST` (lines 264-392): dispatch and submit the
  response batch; the loop continues either way.
* `TAG_SEND_SERVER_RESPONSE` (lines 394-411): release the call's resources,
  re-init and request the next call; `done` only if that request fails.
* Any other tag (lines 412-417): logged and ignored. -/
def serverStep (handlers : String → Option Handler) (inp : StepInput) : StepOutput :=
  match inp.ev.etype with
  | EventType.queueTimeout => ⟨false, none, false, false⟩
  | EventType.queueShutdown => ⟨true, none, false, false⟩
  | EventType.opComplete =>
    match inp.ev.tag with
    | STag.requestNewCall =>
      if inp.ev.success then
        if inp.batchErr = CallError.ok then ⟨false, none, false, false⟩
        else ⟨decide (inp.requestErr ≠ CallError.ok), none, true, true⟩
      else ⟨decide (inp.requestErr ≠ CallError.ok), none, false, true⟩
    | STag.readClientRequest =>
      let d := dispatch handlers inp.ev.success inp.method inp.payload
      ⟨false, some (serverSendOps d), false, false⟩
    | STag.sendServerResponse => ⟨decide (inp.requestErr ≠ CallError.ok), none, true, true⟩
    | STag.serverShutdown => ⟨false, none, false, false⟩

/-- Parameters passed to an R hook (server.cpp line 130: the bind hook gets
a named `port` value; every other hook site passes an empty list). -/
abbrev HookParams := List (String × Int)

/-- Outcome of invoking an R hook function (server.cpp lines 45-58): normal
return or one of the three caught fault kinds. -/
inductive HookResult where
  | ok
  | rcppExn (msg : String)
  | stdExn (msg : String)
  | unknownExn
  deriving DecidableEq

/-- True when the hook raised rather than returned. -/
def HookResult.isExn : HookResult → Bool
  | .ok => false
  | _ => true

/-- An externally supplied hook callable. -/
abbrev Hook := HookParams → HookResult

/-- Observables of `call_r_hook`: whether the hook was invoked, the warning
message written to `Rcpp::Rcerr` when the hook faulted, and whether the
fault escaped the helper (it never does — every catch clause returns
normally). -/
structure HookCallResult where
  invoked : Bool
  warned : Option String
  aborted : Bool
  deriving DecidableEq

/-- server.cpp lines 35-62: `call_r_hook`.  A registered hook is invoked and
any fault it raises is caught and logged as a warning (the single quotes of
the C++ message around the hook name are elided here); a missing hook is
logged at info level and nothing else happens.  No path lets a fault escape. -/
def call_r_hook (hooks : String → Option Hook) (hook_name : String)
    (params_to_send : HookParams) : HookCallResult :=
  match hooks hook_name with
  | some hook_function =>
    match hook_function params_to_send with
    | HookResult.ok => ⟨true, none, false⟩
    | HookResult.rcppExn m =>
      ⟨true, some ("[gRPC Server Warning] Exception in R hook " ++ hook_name ++ ": " ++ m),
       false⟩
    | HookResult.stdExn m =>
      ⟨true, some ("[gRPC Server Warning] std::exception in R hook " ++ hook_name ++ ": " ++ m),
       false⟩
    | HookResult.unknownExn =>
      ⟨true, some ("[gRPC Server Warning] Unknown exception in R hook " ++ hook_name ++ "."),
       false⟩
  | none => ⟨false, none, false⟩

/-- server.cpp lines 114, 122, 131, 142, 169, 423, 468: the hook invocation
points of `robust_grpc_server_run` on a run that binds successfully and
shuts down normally, in source order, with the parameters each site passes
(`bind` receives the bound port, every other site an empty list). -/
def serverHookTrace (port : Int) : List (String × HookParams) :=
  [("server_create", []),
   ("queue_create", []),
   ("bind", [("port", port)]),
   ("server_start", []),
   ("run", []),
   ("shutdown", []),
   ("stopped", [])]

/-- C1: when a handler that returns its input unchanged is registered for the
called method and the request payload is read, the server dispatch yields
status OK with the request bytes as response, the response batch carries
exactly those bytes and an OK status, and the client — receiving what the
server sent through a faithful transport on a successful completion —
returns exactly the request bytes rather than an error. -/
theorem client_server_identity_roundtrip
    (handlers : String → Option Handler) (method : String) (p : Bytes) (h : Handler)
    (hreg : handlers method = some h) (hid : ∀ b, h b = HandlerOutcome.success b) :
    (dispatch handlers true method (some p)).status = StatusCode.ok
    ∧ sentMessage (serverSendOps (dispatch handlers true method (some p))) = some p
    ∧ sentStatus (serverSendOps (dispatch handlers true method (some p)))
        = some (StatusCode.ok, "OK")
    ∧ clientReturns (clientRun CallError.ok ⟨EventType.opComplete, true⟩
        (deliver (serverSendOps (dispatch handlers true method (some p)))))
        = Except.ok p := by
  have hd : dispatch handlers true method (some p) = ⟨StatusCode.ok, "OK", p⟩ := by
    simp [dispatch, hreg, hid p]
  rw [hd]
  refine ⟨rfl, rfl, rfl, rfl⟩

/-- C1 witness: the spec's concrete scenario — method `/echo`, payload
`[0x01, 0x02, 0x03]`, identity handler — returns the payload byte-for-byte. -/
theorem client_server_identity_roundtrip_witness :
    clientReturns (clientRun CallError.ok ⟨EventType.opComplete, true⟩
        (deliver (serverSendOps (dispatch
          (fun _ => some (fun b => HandlerOutcome.success b)) true "/echo" (some [1, 2, 3])))))
      = Except.ok [1, 2, 3] :=
  (client_server_identity_roundtrip (fun _ => some (fun b => HandlerOutcome.success b))
    "/echo" [1, 2, 3] (fun b => HandlerOutcome.success b) rfl (fun _ => rfl)).2.2.2

/-- C2 counterexample: the claim says odd-length metadata (and an empty target
or method) makes the call fail fast with a caller-input error before any
transport interaction.  On the code, the pre-transport phase of
`robust_grpc_client_call` produces no caller-input error at all: with an
empty target, an empty method and the odd-length metadata `["k"]` it
proceeds — with the metadata silently dropped. -/
theorem odd_metadata_not_rejected :
    clientPre "" "" ["k"] = ClientPre.proceed []
    ∧ (clientPre "" "" ["k"]).isCallerError = false
    ∧ (clientPre "localhost:50051" "/echo" ["k1", "v1", "k2"]).isCallerError = false := by
  refine ⟨rfl, rfl, rfl⟩

/-- C2 amended: the client never rejects its inputs.  Odd-length metadata is
silently dropped (the call proceeds with an empty metadata store, client.cpp
lines 80-94), and no input — including an empty target or method — produces
a caller-input error. -/
theorem odd_metadata_silently_dropped (t m : String) (md : List String)
    (hodd : md.length % 2 = 1) :
    clientPre t m md = ClientPre.proceed []
    ∧ (∀ t2 m2 : String, ∀ md2 : List String,
        (clientPre t2 m2 md2).isCallerError = false) := by
  constructor
  · rw [clientPre, buildMetadataStore, if_neg]
    rintro ⟨-, h2⟩
    omega
  · intro t2 m2 md2
    rfl

/-- C2 amended witness: odd-length metadata `["k"]` is dropped and the call
proceeds. -/
theorem odd_metadata_silently_dropped_witness :
    clientPre "t" "/m" ["k"] = ClientPre.proceed []
    ∧ (∀ t2 m2 : String, ∀ md2 : List String,
        (clientPre t2 m2 md2).isCallerError = false) :=
  odd_metadata_silently_dropped "t" "/m" ["k"] (by decide)

/-- C3: a fault of any kind raised in a registered handler is caught at the
dispatch boundary and mapped to status Internal with the fault's description
in the detail string; the read event never sets `done`, the response batch
for the faulted dispatch is submitted, the completion of that batch releases
the call and re-arms the accept slot without setting `done`, and a second
call whose handler succeeds dispatches to OK — the process never terminates
because a handler faulted. -/
theorem handler_fault_internal_and_loop_continues
    (handlers : String → Option Handler) (method : String) (p : Bytes)
    (msg : String) (h : Handler) (hreg : handlers method = some h) :
    (h p = HandlerOutcome.rcppFault msg →
      dispatch handlers true method (some p)
        = ⟨StatusCode.internal, "Error in R handler: " ++ msg, []⟩)
    ∧ (h p = HandlerOutcome.stdFault msg →
      dispatch handlers true method (some p)
        = ⟨StatusCode.internal, "System error in R handler: " ++ msg, []⟩)
    ∧ (h p = HandlerOutcome.unknownFault →
      dispatch handlers true method (some p)
        = ⟨StatusCode.internal, "Unknown error during R handler execution.", []⟩)
    ∧ (serverStep handlers ⟨⟨EventType.opComplete, STag.readClientRequest, true⟩,
        method, some p, CallError.ok, CallError.ok⟩).done = false
    ∧ (serverStep handlers ⟨⟨EventType.opComplete, STag.readClientRequest, true⟩,
        method, some p, CallError.ok, CallError.ok⟩).sendBatch
        = some (serverSendOps (dispatch handlers true method (some p)))
    ∧ (serverStep handlers ⟨⟨EventType.opComplete, STag.sendServerResponse, true⟩,
        method, none, CallError.ok, CallError.ok⟩).done = false
    ∧ (serverStep handlers ⟨⟨EventType.opComplete, STag.sendServerResponse, true⟩,
        method, none, CallError.ok, CallError.ok⟩).rearmed = true
    ∧ (∀ (method2 : String) (p2 r2 : Bytes) (h2 : Handler),
        handlers method2 = some h2 → h2 p2 = HandlerOutcome.success r2 →
        dispatch handlers true method2 (some p2) = ⟨StatusCode.ok, "OK", r2⟩) := by
  refine ⟨?_, ?_, ?_, rfl, rfl, rfl, rfl, ?_⟩
  · intro hf; simp [dispatch, hreg, hf]
  · intro hf; simp [dispatch, hreg, hf]
  · intro hf; simp [dispatch, hreg, hf]
  · intro method2 p2 r2 h2 hreg2 hok
    simp [dispatch, hreg2, hok]

/-- C3 witness: a handler raising an Rcpp fault with message `boom` yields
status Internal with the message in the detail, and the loop does not stop. -/
theorem handler_fault_witness :
    dispatch (fun _ => some (fun _ => HandlerOutcome.rcppFault "boom")) true "/f" (some [7])
      = ⟨StatusCode.internal, "Error in R handler: boom", []⟩
    ∧ (serverStep (fun _ => some (fun _ => HandlerOutcome.rcppFault "boom"))
        ⟨⟨EventType.opComplete, STag.readClientRequest, true⟩,
          "/f", some [7], CallError.ok, CallError.ok⟩).done = false := by
  have h := handler_fault_internal_and_loop_continues
    (fun _ => some (fun _ => HandlerOutcome.rcppFault "boom")) "/f" [7] "boom"
    (fun _ => HandlerOutcome.rcppFault "boom") rfl
  exact ⟨h.1 rfl, h.2.2.2.1⟩

/-- C4: a request read successfully with a payload, whose method has no
registered handler, dispatches to status Unimplemented with a detail string
that contains the method name, and the response batch the server submits
carries that status op. -/
theorem unknown_method_unimplemented
    (handlers : String → Option Handler) (method : String) (p : Bytes)
    (hnone : handlers method = none) :
    (dispatch handlers true method (some p)).status = StatusCode.unimplemented
    ∧ (dispatch handlers true method (some p)).details
        = "Method not implemented or not found: " ++ method
    ∧ (∃ pre : String, (dispatch handlers true method (some p)).details = pre ++ method)
    ∧ ServerOp.sendStatusFromServer StatusCode.unimplemented
        ("Method not implemented or not found: " ++ method)
        ∈ serverSendOps (dispatch handlers true method (some p))
    ∧ (serverStep handlers ⟨⟨EventType.opComplete, STag.readClientRequest, true⟩,
        method, some p, CallError.ok, CallError.ok⟩).sendBatch
        = some (serverSendOps (dispatch handlers true method (some p))) := by
  have hd : dispatch handlers true method (some p)
      = ⟨StatusCode.unimplemented, "Method not implemented or not found: " ++ method, []⟩ := by
    simp [dispatch, hnone]
  refine ⟨by rw [hd], by rw [hd], ⟨"Method not implemented or not found: ", by rw [hd]⟩,
    ?_, rfl⟩
  rw [hd]
  simp [serverSendOps]

/-- C4 witness: calling the unregistered method `/nope` yields Unimplemented
with the method name in the detail. -/
theorem unknown_method_unimplemented_witness :
    (dispatch (fun _ => none) true "/nope" (some [1])).status = StatusCode.unimplemented
    ∧ (dispatch (fun _ => none) true "/nope" (some [1])).details
        = "Method not implemented or not found: /nope" := by
  have h := unknown_method_unimplemented (fun _ => none) "/nope" [1] rfl
  exact ⟨h.1, h.2.1⟩

/-- C5 counterexample: the claim says a completion event with
`success = false` whose deadline has elapsed is classified as Timeout and
triggers an explicit cancellation.  The code's handling of a failed
completion (client.cpp lines 223-232) consults nothing time-related — the
branch has no deadline input at all — and issues no cancellation: at a
concrete failed completion the outcome is the batch-failure classification
with `cancelIssued = false`, not the Timeout classification (which is the
message of line 234) with a cancellation. -/
theorem failed_completion_not_timeout :
    (clientRun CallError.ok ⟨EventType.opComplete, false⟩
      ⟨StatusCode.unknown, "", none⟩).cancelIssued = false
    ∧ (clientRun CallError.ok ⟨EventType.opComplete, false⟩
      ⟨StatusCode.unknown, "", none⟩).details
        = "RPC batch failed (event.success=0). Final status from server (if any): 2" := by
  refine ⟨rfl, rfl⟩

/-- C5 amended: timeout is distinguished from transport failure by the kind
of the completion-queue event, not by a deadline check.  A
`GRPC_QUEUE_TIMEOUT` event from the poll (whose deadline is the call
deadline) is classified as a timeout and triggers
`grpc_call_cancel_with_status`; a completion event with `success = false`
is classified as a batch failure, with no cancellation, regardless of the
receive state. -/
theorem timeout_classified_by_event_kind (recv : RecvState) (b : Bool) :
    (clientRun CallError.ok ⟨EventType.queueTimeout, b⟩ recv).cancelIssued = true
    ∧ (clientRun CallError.ok ⟨EventType.queueTimeout, b⟩ recv).details
        = "Robust Client: Call timed out waiting for completion queue."
    ∧ (clientRun CallError.ok ⟨EventType.opComplete, false⟩ recv).cancelIssued = false
    ∧ (clientRun CallError.ok ⟨EventType.opComplete, false⟩ recv).finalStatus
        = StatusCode.unknown := by
  refine ⟨rfl, rfl, rfl, rfl⟩

/-- C6 counterexample: the claim says the call deadline is now plus a
caller-supplied timeout and that the client operation accepts a
`timeoutSeconds` parameter.  On the code the deadline is now plus a fixed
15 seconds (client.cpp line 127) — at `now = 0` and a caller timeout of 1
second the two disagree — and the parameter list of
`robust_grpc_client_call` (client.cpp lines 32-35) has no timeout
parameter. -/
theorem deadline_not_caller_supplied :
    clientCallDeadline 0 = 15
    ∧ (clientCallDeadline 0 == clientCallDeadlineSpec 0 1) = false
    ∧ clientCallParams.contains "timeoutSeconds" = false := by
  refine ⟨rfl, rfl, by decide⟩

/-- C6 amended: every call is created with an absolute deadline equal to the
current time plus a fixed 15 seconds, and the external client operation has
exactly the four parameters target, method, request payload and metadata —
no timeout parameter. -/
theorem deadline_fixed_fifteen_seconds (now : Nat) :
    clientCallDeadline now = now + 15
    ∧ clientCallParams.contains "timeoutSeconds" = false
    ∧ clientCallParams
        = ["r_target_str", "r_method_str", "r_request_payload", "r_metadata_sexp"] := by
  refine ⟨rfl, by decide, rfl⟩

/-- C7: the client submits exactly one batch of six operations, in the order
send-initial-metadata, send-message(payload), send-close-from-client,
receive-initial-metadata, receive-message, receive-status, all under the
single tag 1; and when that submission returns a `grpc_call_error`, the
queue is never polled, no cancellation is issued, and the failure is
surfaced to the caller as an error naming the submission error code. -/
theorem single_batch_of_six_ops
    (store : List (String × String)) (p : Bytes) (n : Nat)
    (ev : ClientEvent) (recv : RecvState) :
    clientBatch store p
      = [ClientOp.sendInitialMetadata store, ClientOp.sendMessage p,
         ClientOp.sendCloseFromClient, ClientOp.recvInitialMetadata,
         ClientOp.recvMessage, ClientOp.recvStatusOnClient]
    ∧ (clientBatch store p).length = 6
    ∧ clientBatchTag = 1
    ∧ (clientRun (CallError.error n) ev recv).polled = false
    ∧ (clientRun (CallError.error n) ev recv).cancelIssued = false
    ∧ (clientRun (CallError.error n) ev recv).details
        = "Robust Client: grpc_call_start_batch failed with error: " ++ toString n
    ∧ clientIsError (clientReturns (clientRun (CallError.error n) ev recv)) = true := by
  refine ⟨rfl, rfl, rfl, rfl, rfl, rfl, rfl⟩

/-- C8: the server's response batch starts with receive-close-on-server and
ends with the send-status op; it contains a send-message op exactly when the
terminal status is OK (carrying the dispatch response), and on the
completion of that batch — successful or not — the call's resources are
released and a new call is requested, without stopping the loop. -/
theorem response_batch_shape_and_rearm
    (handlers : String → Option Handler) (d : DispatchResult) (b : Bool)
    (m : String) (pl : Option Bytes) :
    (serverSendOps d).head? = some ServerOp.recvCloseOnServer
    ∧ (serverSendOps d).getLast? = some (ServerOp.sendStatusFromServer d.status d.details)
    ∧ (d.status = StatusCode.ok →
        serverSendOps d
          = [ServerOp.recvCloseOnServer, ServerOp.sendMessage d.response,
             ServerOp.sendStatusFromServer StatusCode.ok d.details])
    ∧ (d.status ≠ StatusCode.ok →
        serverSendOps d
          = [ServerOp.recvCloseOnServer, ServerOp.sendStatusFromServer d.status d.details]
        ∧ ∀ q : Bytes, ServerOp.sendMessage q ∉ serverSendOps d)
    ∧ serverStep handlers ⟨⟨EventType.opComplete, STag.sendServerResponse, b⟩,
        m, pl, CallError.ok, CallError.ok⟩
        = ⟨false, none, true, true⟩ := by
  refine ⟨?_, ?_, ?_, ?_, rfl⟩
  · by_cases hc : d.status = StatusCode.ok <;> simp [serverSendOps, hc]
  · by_cases hc : d.status = StatusCode.ok <;> simp [serverSendOps, hc]
  · intro hc; simp [serverSendOps, hc]
  · intro hc
    constructor
    · simp [serverSendOps, hc]
    · intro q
      simp [serverSendOps, hc]

/-- C8 witness: an OK dispatch result produces the three-op batch with the
response message, a non-OK one the two-op batch without it, and the
send-completion step releases and re-arms. -/
theorem response_batch_shape_witness :
    serverSendOps ⟨StatusCode.ok, "OK", [1]⟩
      = [ServerOp.recvCloseOnServer, ServerOp.sendMessage [1],
         ServerOp.sendStatusFromServer StatusCode.ok "OK"]
    ∧ serverSendOps ⟨StatusCode.internal, "e", []⟩
      = [ServerOp.recvCloseOnServer, ServerOp.sendStatusFromServer StatusCode.internal "e"]
    ∧ serverStep (fun _ => none) ⟨⟨EventType.opComplete, STag.sendServerResponse, false⟩,
        "", none, CallError.ok, CallError.ok⟩
        = ⟨false, none, true, true⟩ := by
  have h1 := response_batch_shape_and_rearm (fun _ => none)
    ⟨StatusCode.ok, "OK", [1]⟩ false "" none
  have h2 := response_batch_shape_and_rearm (fun _ => none)
    ⟨StatusCode.internal, "e", []⟩ false "" none
  exact ⟨h1.2.2.1 rfl, (h2.2.2.2.1 (by decide)).1, h1.2.2.2.2⟩

/-- C9: `call_r_hook` never lets a hook fault escape (`aborted` is always
false), invokes the hook exactly when one is registered under the name, is a
pure no-op for a missing hook, logs a warning whenever the invoked hook
faults, and the server run invokes exactly the seven hook points
server_create, queue_create, bind (with the bound port), server_start, run,
shutdown, stopped. -/
theorem hooks_total_and_trace
    (hooks : String → Option Hook) (hook_name : String)
    (params : HookParams) (port : Int) :
    (call_r_hook hooks hook_name params).aborted = false
    ∧ (call_r_hook hooks hook_name params).invoked = (hooks hook_name).isSome
    ∧ (hooks hook_name = none → call_r_hook hooks hook_name params = ⟨false, none, false⟩)
    ∧ (∀ h : Hook, hooks hook_name = some h → (h params).isExn = true →
        (call_r_hook hooks hook_name params).warned.isSome = true)
    ∧ (serverHookTrace port).map Prod.fst
        = ["server_create", "queue_create", "bind", "server_start", "run",
           "shutdown", "stopped"]
    ∧ ("bind", [("port", port)]) ∈ serverHookTrace port := by
  refine ⟨?_, ?_, ?_, ?_, rfl, by simp [serverHookTrace]⟩
  · cases hh : hooks hook_name with
    | none => simp [call_r_hook, hh]
    | some h => cases hr : h params <;> simp [call_r_hook, hh, hr]
  · cases hh : hooks hook_name with
    | none => simp [call_r_hook, hh]
    | some h => cases hr : h params <;> simp [call_r_hook, hh, hr]
  · intro hh; simp [call_r_hook, hh]
  · intro h hh hexn
    cases hr : h params with
    | ok => rw [hr] at hexn; simp [HookResult.isExn] at hexn
    | rcppExn m => simp [call_r_hook, hh, hr]
    | stdExn m => simp [call_r_hook, hh, hr]
    | unknownExn => simp [call_r_hook, hh, hr]

/-- C9 witness: a hook that raises an unknown fault is caught and logged
without aborting, and a missing hook is a no-op. -/
theorem hooks_total_witness :
    (call_r_hook (fun _ => some (fun _ => HookResult.unknownExn)) "run" []).aborted = false
    ∧ (call_r_hook (fun _ => some (fun _ => HookResult.unknownExn)) "run" []).warned.isSome
        = true
    ∧ (call_r_hook (fun _ => none) "stopped" []).invoked = false := by
  have h1 := hooks_total_and_trace (fun _ => some (fun _ => HookResult.unknownExn)) "run" [] 0
  have h2 := hooks_total_and_trace (fun _ : String => none) "stopped" [] 0
  exact ⟨h1.1, h1.2.2.2.1 _ rfl rfl, by rw [h2.2.1]; rfl⟩

/-- C10: the client raises an error to the caller exactly when the final
recorded status is not OK; on a batch-submission failure, a queue timeout or
a failed completion the status keeps its initial UNKNOWN value, on a
successful completion it is the status the transport delivered, and an OK
completion that carried no response message returns a zero-length byte
vector rather than an error. -/
theorem error_iff_final_status_not_ok :
    (∀ (sub : CallError) (ev : ClientEvent) (recv : RecvState),
      clientIsError (clientReturns (clientRun sub ev recv))
        = decide ((clientRun sub ev recv).finalStatus ≠ StatusCode.ok))
    ∧ (∀ (n : Nat) (ev : ClientEvent) (recv : RecvState),
        (clientRun (CallError.error n) ev recv).finalStatus = StatusCode.unknown)
    ∧ (∀ (b : Bool) (recv : RecvState),
        (clientRun CallError.ok ⟨EventType.queueTimeout, b⟩ recv).finalStatus
          = StatusCode.unknown)
    ∧ (∀ recv : RecvState,
        (clientRun CallError.ok ⟨EventType.opComplete, false⟩ recv).finalStatus
          = StatusCode.unknown)
    ∧ (∀ recv : RecvState,
        (clientRun CallError.ok ⟨EventType.opComplete, true⟩ recv).finalStatus = recv.status)
    ∧ (∀ dtl : String,
        clientReturns (clientRun CallError.ok ⟨EventType.opComplete, true⟩
          ⟨StatusCode.ok, dtl, none⟩) = Except.ok []) := by
  refine ⟨?_, fun n ev recv => rfl, fun b recv => rfl, fun recv => rfl, ?_, fun dtl => rfl⟩
  · intro sub ev recv
    rcases ev with ⟨t, s⟩
    cases sub with
    | error n => rfl
    | ok =>
      cases t with
      | queueShutdown => rfl
      | queueTimeout => rfl
      | opComplete =>
        cases s with
        | false => rfl
        | true =>
          by_cases hst : recv.status = StatusCode.ok <;>
            simp [clientRun, clientReturns, clientIsError, hst]
  · intro recv
    by_cases hst : recv.status = StatusCode.ok <;> simp [clientRun, hst]

end RGrpc
